import Mathlib

/-!
Verification development for the `migrates` Elasticsearch migration engine.

The Python source is shallowly embedded: strings are lists of characters
(Python indexes and slices strings per character), dictionaries are
association lists, and code that can raise returns `Option` or `Except`.
Each definition carries a reference to the source function it embeds.
-/

namespace Migrates

deriving instance DecidableEq for Except

/-- Python strings, embedded per character. -/
abbrev Str := List Char

/-! ## Pattern matcher

Source: `migrates/migrates.py`, `Migrates.get_pattern_regex` and
`Migrates.match_pattern`:

    return re.escape(pattern).replace('\\*', '.*') + '$'
    return re.match(cls.get_pattern_regex(pattern), target)

After `re.escape`, every character of the pattern is a literal unit; the
`replace` turns exactly the escaped `*` characters into `.*`.  Hence the
compiled regex is the concatenation, over the pattern's characters, of a
literal character for every character other than `*` and of `.*` for every
`*`, followed by `$`.  Python's `.` does not match a newline, and `$`
asserts either the end of the string or the position just before a final
newline.  `re.match` anchors at the start only.
-/

/-- The `.*` piece of the compiled regex: try the continuation `k` on every
suffix reachable by consuming characters other than a newline. -/
def starMatch (k : Str → Bool) : Str → Bool
  | [] => k []
  | c :: s => k (c :: s) || (decide (c ≠ '\n') && starMatch k s)

/-- Does the core regex (pattern characters, with every `*` standing for
`.*` where `.` excludes the newline) match the whole string? -/
def coreMatch : Str → Str → Bool
  | [], s => s.isEmpty
  | a :: p, s =>
      if a = '*' then starMatch (coreMatch p) s
      else
        match s with
        | [] => false
        | c :: s' => a == c && coreMatch p s'

/-- Source: `Migrates.match_pattern`.  `re.match(core + '$', target)` is
truthy exactly when the core matches all of `target`, or `target` ends in a
newline and the core matches all of `target` but that final newline. -/
def match_pattern (pattern target : Str) : Bool :=
  coreMatch pattern target ||
    (target.getLast? == some '\n' && coreMatch pattern target.dropLast)

/-- Modelled from the spec: "`match(p, s)` iff `s` is fully matched by the
regex formed by escaping `p` and replacing `\*` with `.*`", "anchor at both
ends".  A full match anchored at both ends is exactly `coreMatch`. -/
def match_pattern_spec (pattern target : Str) : Bool :=
  coreMatch pattern target

/-! ## Dummy ("shadow") index naming

Source: `migrates/migrates.py`, `Migrates.get_dummy_index` and
`Migrates.get_original_index`.
-/

/-- Source: `Migrates.get_dummy_index`: `self.dummy_index_prefix + index`. -/
def get_dummy_index (dummyPre index : Str) : Str :=
  dummyPre ++ index

/-- Source: `Migrates.get_original_index`: raises `ValueError` when the
name does not start with the dummy-index prefix, else strips it.  The
raise is embedded as `none`. -/
def get_original_index (dummyPre dummy : Str) : Option Str :=
  if dummyPre.isPrefixOf dummy then some (dummy.drop dummyPre.length)
  else none

/-! ## Documents and migration units

A scanned Elasticsearch document is a Python dict; the engine reads and
writes the keys `_index`, `_type`, `_id`, `_source`, `_op_type`.  A user
transform may remove keys, so each is optional.  `_source` is itself a
dict; it is embedded as an association list (the history scan reads its
`name` entry).
-/

/-- The `_source` dict of a document, as an association list. -/
abbrev Source := List (Str × Str)

/-- An Elasticsearch document / bulk action dict, restricted to the keys
the engine touches. -/
structure EsDoc where
  dIndex : Option Str
  dType : Option Str
  dId : Option Str
  dSource : Option Source
  dOpType : Option Str
deriving DecidableEq

/-- The template catalog: template name to (opaque) body. -/
abbrev Templates := List (Str × Str)

/-- Source: `migrates/migrates.py`, class `Migration`.  A document
transform may raise (`Except.error`) or return `none` (Python `None`,
meaning delete the document).  `transform_templates` returning Python
`None`, or raising, is embedded as the function returning `none`.
`docTransforms` is the dict returned by `transform_documents`: index-name
pattern to (doc-type pattern to transform function); a `Migration` whose
target lacks the attribute has the empty dict. -/
structure Migration where
  name : Str
  date : Nat
  repeatFlag : Bool
  internal : Bool
  docTransforms : List (Str × List (Str × (EsDoc → Except Unit (Option EsDoc))))
  templTransform : Option (Templates → Option Templates)

/-! ## Pending migrations

Source: `Migrates.get_performed_migrations` returns the set of `name`
fields of the history index's documents (empty when the index is absent);
`Migrates.get_pending_migrations` filters the registry by
`migration.repeat or migration.name not in performed` and then runs the
stable `list.sort` with key `migration.date`.  `List.insertionSort` with
`· ≤ ·` on the key is a stable sort, hence extensionally equal to it.
-/

/-- Source: the filter condition of `Migrates.get_pending_migrations`. -/
def keepPending (performed : List Str) (m : Migration) : Bool :=
  m.repeatFlag || !(performed.contains m.name)

/-- Source: `Migrates.get_pending_migrations`.  The registry dict is
embedded as a list in insertion order (`registry.values()`). -/
def get_pending_migrations (registry : List Migration) (performed : List Str) :
    List Migration :=
  List.insertionSort (fun a b => a.date ≤ b.date)
    (registry.filter (keepPending performed))

/-- Lexicographic (code-point) strict order on strings, as Python compares
them. -/
def strLT : Str → Str → Bool
  | [], [] => false
  | [], _ :: _ => true
  | _ :: _, [] => false
  | a :: s, b :: t => a < b || (a == b && strLT s t)

/-- The (date, name) pair order the spec claims for pending migrations. -/
def dateNameLE (a b : Migration) : Bool :=
  a.date < b.date || (a.date == b.date && (a.name == b.name || strLT a.name b.name))

/-- Modelled from the spec: "`pending(H)` returns exactly the units whose
name is absent from H or whose `repeat` is true, in (date,name) order". -/
def get_pending_migrations_spec (registry : List Migration) (performed : List Str) :
    List Migration :=
  List.insertionSort (fun a b => dateNameLE a b = true)
    (registry.filter (keepPending performed))

/-! ## Resolving the migration list in `Migrates.migrate`

Source: `Migrates.migrate(self, migrations=None)`.  The explicit argument
is embedded as `Option (List Migration)` (`None` / an iterable realized as
a list).  The source sets `self.migrations` to the pending list when the
argument is `None`, else to `list(migrations)`; it then executes
`if not migrations: return` — testing the truthiness of the PARAMETER
`migrations`, which is always falsy when the parameter was `None`.
-/

/-- Source: the assignment to `self.migrations` in `Migrates.migrate`. -/
def migrate_arg_resolved (registry : List Migration) (performed : List Str) :
    Option (List Migration) → List Migration
  | none => get_pending_migrations registry performed
  | some l => l

/-- Source: `if not migrations: return` in `Migrates.migrate`: `not None`
is `True`; `not l` for a list is emptiness. -/
def migrate_returns_early : Option (List Migration) → Bool
  | none => true
  | some l => l.isEmpty

/-! ## Version probe and keyword-field shaping

Source: `Migrates.get_keyword_field`:

    if self.es_version and int(self.es_version[0]) >= 5:
        return {"type": "keyword", "index": True}
    else:
        return {"type": "string", "index": "not_analyzed"}

`self.es_version` is the version string, e.g. `"5.2.1"`; `[0]` is its
FIRST CHARACTER.  `int` of a non-digit raises, embedded as `Except.error`.
-/

/-- The two field mappings `get_keyword_field` can return. -/
inductive KeywordField where
  | keyword
  | stringNotAnalyzed
deriving DecidableEq

/-- Source: `Migrates.get_keyword_field`. -/
def get_keyword_field (esVersion : Str) : Except Unit KeywordField :=
  match esVersion with
  | [] => Except.ok KeywordField.stringNotAnalyzed
  | c :: _ =>
      if c.isDigit then
        Except.ok
          (if 5 ≤ c.toNat - 48 then KeywordField.keyword
           else KeywordField.stringNotAnalyzed)
      else Except.error ()

/-- The numeric value of the leading dotted component of a version
string, e.g. `10` for `"10.0.0"`. -/
def leadingComponent (v : Str) : Nat :=
  (v.takeWhile Char.isDigit).foldl (fun n c => 10 * n + (c.toNat - 48)) 0

/-- Modelled from the spec: "If the leading component is ≥ 5, use
keyword/true for string-exact fields in the history template; else use
string/not_analyzed". -/
def get_keyword_field_spec (esVersion : Str) : KeywordField :=
  if 5 ≤ leadingComponent esVersion then KeywordField.keyword
  else KeywordField.stringNotAnalyzed

/-! ## The bulk writer

Source: `migrates/batch.py`.  `Batch.flush(max_attempts=3, attempts=0)`
calls the bulk helper when `self.actions` is non-empty; on
`BulkIndexError` it retries (after a 5 s sleep) while
`attempts < max_attempts`, else re-raises.  On a success with
`attempts != 0` it logs a note.  Only the outermost call (`attempts == 0`)
clears the buffers and sleeps 1 s.  Whether the bulk call at attempt
number `k` fails is an oracle `fail : Nat → Bool`.
-/

/-- Observable outcome of one `Batch.flush` call. -/
structure FlushResult where
  bulkCalls : Nat
  sleeps5 : Nat
  success : Bool
  loggedNote : Bool
deriving DecidableEq

/-- Source: the recursion of `Batch.flush` for a non-empty buffer.
`retriesLeft` is `max_attempts - attempts`, so the guard
`attempts < max_attempts` is `retriesLeft ≠ 0`. -/
def flushAttempts (fail : Nat → Bool) (attempts : Nat) : Nat → FlushResult
  | retriesLeft + 1 =>
      if fail attempts then
        let r := flushAttempts fail (attempts + 1) retriesLeft
        { r with bulkCalls := r.bulkCalls + 1, sleeps5 := r.sleeps5 + 1 }
      else
        { bulkCalls := 1, sleeps5 := 0, success := true,
          loggedNote := attempts != 0 }
  | 0 =>
      if fail attempts then
        { bulkCalls := 1, sleeps5 := 0, success := false, loggedNote := false }
      else
        { bulkCalls := 1, sleeps5 := 0, success := true,
          loggedNote := attempts != 0 }

/-- Source: `Batch.flush` with the default `max_attempts=3, attempts=0`:
an empty buffer performs no bulk call at all. -/
def flush (fail : Nat → Bool) (actions : List EsDoc) : FlushResult :=
  if actions.isEmpty then
    { bulkCalls := 0, sleeps5 := 0, success := true, loggedNote := false }
  else flushAttempts fail 0 3

/-! ## Batch buffering

Source: `Batch.add`: append the action, add its `_index` to the index set,
and flush when `len(self.actions) >= self.size` or
`len(self.indexes) >= self.indexes_size`.  A successful flush clears both
buffers (a flush whose retries are exhausted aborts the run by exception;
the counting claims below concern the success path).  Reading `_index`
from a dict lacking it raises, embedded by requiring the key below.
-/

/-- The buffering state of `Batch` (connection and logger omitted). -/
structure Batch where
  size : Nat
  indexesSize : Nat
  actions : List EsDoc
  indexes : Finset Str

/-- Source: `Batch.__init__` defaults `size=1000, indexes_size=5`. -/
def Batch.init (size : Nat := 1000) (indexesSize : Nat := 5) : Batch :=
  { size := size, indexesSize := indexesSize, actions := [], indexes := ∅ }

/-- Source: `Batch.add`, for an action whose `_index` is `ix`.  Returns
the new state and whether a flush was triggered. -/
def Batch.addIx (b : Batch) (a : EsDoc) (ix : Str) : Batch × Bool :=
  let actions := b.actions ++ [a]
  let indexes := insert ix b.indexes
  if b.size ≤ actions.length ∨ b.indexesSize ≤ indexes.card then
    ({ b with actions := [], indexes := ∅ }, true)
  else
    ({ b with actions := actions, indexes := indexes }, false)

/-- Source: `Batch.add`: `self.indexes.add(action['_index'])` raises when
the action has no `_index`. -/
def Batch.add (b : Batch) (a : EsDoc) : Except Unit (Batch × Bool) :=
  match a.dIndex with
  | none => Except.error ()
  | some ix => Except.ok (b.addIx a ix)

/-- Source: `Batch.update`: fold `add` over a list of actions. -/
def Batch.run (b : Batch) : List (EsDoc × Str) → Batch
  | [] => b
  | (a, ix) :: rest => (b.addIx a ix).1.run rest

/-! ## Selecting a document transform

Source: `Migration.get_document_transform`.  The dict
`transform_map = self.transform_documents()` is embedded as the
association list `docTransforms` (dict keys are unique and iterate in
insertion order).  The code collects the index-pattern keys matching
`document['_index']`; more than one match raises (the raise's own message
formatting uses `{2}` with two arguments and itself raises `IndexError`,
but an exception propagates either way).  With exactly one match it reads
`document['_type']` and repeats the selection among that entry's doc-type
patterns.  With no match at either level, the identity transform is
returned.
-/

/-- A document transform function. -/
abbrev TF := EsDoc → Except Unit (Option EsDoc)

/-- The `transform_documents` dict shape. -/
abbrev TransformMap := List (Str × List (Str × TF))

/-- The index-pattern keys of `tm` matching the concrete index name
(`index_keys` in the source). -/
def matchingKeys (keys : List Str) (target : Str) : List Str :=
  keys.filter (fun p => match_pattern p target)

/-- Source: `Migration.get_document_transform`, selection at a concrete
index name and doc type. -/
def get_document_transform_at (tm : TransformMap) (di dt : Str) :
    Except Unit TF :=
  let indexKeys := matchingKeys (tm.map Prod.fst) di
  if 1 < indexKeys.length then Except.error ()
  else
    match indexKeys with
    | [] => Except.ok (fun d => Except.ok (some d))
    | ik :: _ =>
        match tm.lookup ik with
        | none => Except.error ()
        | some typeMap =>
            let typeKeys := matchingKeys (typeMap.map Prod.fst) dt
            if 1 < typeKeys.length then Except.error ()
            else
              match typeKeys with
              | [] => Except.ok (fun d => Except.ok (some d))
              | tk :: _ =>
                  match typeMap.lookup tk with
                  | none => Except.error ()
                  | some f => Except.ok f

/-- Source: `Migration.get_document_transform`.  `document['_index']` is
read during index-key selection; `document['_type']` only once an index
key matched (`KeyError` embedded as `Except.error`). -/
def Migration.get_document_transform (m : Migration) (d : EsDoc) :
    Except Unit TF :=
  match d.dIndex with
  | none => Except.error ()
  | some di =>
      let indexKeys := matchingKeys (m.docTransforms.map Prod.fst) di
      if indexKeys.isEmpty then Except.ok (fun doc => Except.ok (some doc))
      else
        match d.dType with
        | none => Except.error ()
        | some dt => get_document_transform_at m.docTransforms di dt

/-- Source: `Migration.transform_document`: select and apply. -/
def Migration.transform_document (m : Migration) (d : EsDoc) :
    Except Unit (Option EsDoc) :=
  match m.get_document_transform d with
  | Except.error e => Except.error e
  | Except.ok f => f d

/-- The doc-type keys examined once `indexKeys = [ik]`: those of the
entry `tm[ik]` that match the document's type (empty when `ik` has no
entry).  Used to state the ambiguity condition. -/
def matchingTypeKeys (tm : TransformMap) (di dt : Str) : List Str :=
  match matchingKeys (tm.map Prod.fst) di with
  | [] => []
  | ik :: _ =>
      match tm.lookup ik with
      | none => []
      | some typeMap => matchingKeys (typeMap.map Prod.fst) dt

/-! ## The per-document migration pipeline

Source: the body of the document loop in `Migrates.migrate_indexes`
(non-dry path):

    document['_index'] = self.get_original_index(document['_index'])
    ...
    for migration in self.migrations:
        document = migration.transform_document(document)   # may raise
        if document is None: break
    ...
    if document is not None and not self.dry:
        batch.add(self.validate_transformed_document(document, add_op_type=True))
-/

/-- Source: `Migrates.validate_transformed_document`. -/
def validate_transformed_document (d : EsDoc) (addOpType : Bool) :
    Except Unit EsDoc :=
  if d.dIndex.isNone then Except.error ()
  else if d.dType.isNone then Except.error ()
  else if d.dSource.isNone then Except.error ()
  else if addOpType && d.dOpType.isNone then
    Except.ok { d with dOpType := some "index".toList }
  else Except.ok d

/-- Source: the `_index` rewrite at the top of the document loop.
Reading a missing `_index`, or `get_original_index` on a name without the
dummy prefix, raises. -/
def rewriteOriginal (dummyPre : Str) (d : EsDoc) : Except Unit EsDoc :=
  match d.dIndex with
  | none => Except.error ()
  | some ix =>
      match get_original_index dummyPre ix with
      | none => Except.error ()
      | some orig => Except.ok { d with dIndex := some orig }

/-- Source: the `for migration in self.migrations` fold: raising aborts
the stage (non-dry), returning `None` deletes the document and breaks. -/
def foldTransforms : List Migration → EsDoc → Except Unit (Option EsDoc)
  | [], d => Except.ok (some d)
  | m :: ms, d =>
      match m.transform_document d with
      | Except.error e => Except.error e
      | Except.ok none => Except.ok none
      | Except.ok (some d') => foldTransforms ms d'

/-- Source: the complete non-dry handling of one scanned document in
`Migrates.migrate_indexes`; `ok (some a)` is the action streamed to the
bulk writer, `ok none` a deleted document. -/
def migrate_document (dummyPre : Str) (ms : List Migration) (d : EsDoc) :
    Except Unit (Option EsDoc) :=
  match rewriteOriginal dummyPre d with
  | Except.error e => Except.error e
  | Except.ok d0 =>
      match foldTransforms ms d0 with
      | Except.error e => Except.error e
      | Except.ok none => Except.ok none
      | Except.ok (some d1) =>
          match validate_transformed_document d1 true with
          | Except.error e => Except.error e
          | Except.ok d2 => Except.ok (some d2)

/-- Modelled from the spec: "the pending units' applicable transforms are
folded over it in unit order, and after the fold the document is validated
to still carry `_index`, `_type` and `_source`, its `_index` is rewritten
back to the original (un-shadowed) index name, and it is streamed to the
bulk writer with opType index" — i.e. with the rewrite placed AFTER the
fold. -/
def migrate_document_spec (dummyPre : Str) (ms : List Migration) (d : EsDoc) :
    Except Unit (Option EsDoc) :=
  match foldTransforms ms d with
  | Except.error e => Except.error e
  | Except.ok none => Except.ok none
  | Except.ok (some d1) =>
      match validate_transformed_document d1 true with
      | Except.error e => Except.error e
      | Except.ok d2 =>
          match rewriteOriginal dummyPre d2 with
          | Except.error e => Except.error e
          | Except.ok d3 => Except.ok (some d3)

/-! ## The Elasticsearch store

The store state the orchestrator can observe and mutate: the template
catalog and the named indexes with their documents.  Index settings and
mappings are opaque snapshots (`settingsBody`): the engine only copies
them around (the Elasticsearch 5.x `creation_date` strip happens inside
that opaque blob and is below this abstraction).
-/

/-- A document as it lives in an index. -/
structure StoreDoc where
  sdType : Str
  sdId : Str
  sdSource : Source
deriving DecidableEq

/-- A named index: its documents (in scan order; scans use the `_doc`
sort, so repeated scans yield the same sequence) and its opaque
settings/mappings snapshot. -/
structure StoreIndex where
  docs : List StoreDoc
  settingsBody : Str
deriving DecidableEq

/-- The observable store state. -/
structure Store where
  templates : Templates
  indexes : List (Str × StoreIndex)
deriving DecidableEq

/-- Update or append a binding in an association list (dict upsert). -/
def upsert {α : Type} (l : List (Str × α)) (k : Str) (v : α) : List (Str × α) :=
  if l.any (fun e => e.1 == k) then
    l.map (fun e => if e.1 == k then (k, v) else e)
  else l ++ [(k, v)]

def Store.putTemplate (s : Store) (n b : Str) : Store :=
  { s with templates := upsert s.templates n b }

def Store.deleteTemplate (s : Store) (n : Str) : Store :=
  { s with templates := s.templates.filter (fun e => !(e.1 == n)) }

def Store.indexExists (s : Store) (n : Str) : Bool :=
  s.indexes.any (fun e => e.1 == n)

def Store.createIndex (s : Store) (n : Str) (body : Str) : Store :=
  { s with indexes := upsert s.indexes n ⟨[], body⟩ }

def Store.deleteIndex (s : Store) (n : Str) : Store :=
  { s with indexes := s.indexes.filter (fun e => !(e.1 == n)) }

/-- The documents of an index (a scan; empty when the index is absent,
the `NotFoundError` case the engine tolerates). -/
def Store.getDocs (s : Store) (n : Str) : List StoreDoc :=
  ((s.indexes.lookup n).map StoreIndex.docs).getD []

/-- Apply one bulk action.  Actions the orchestrator emits always carry
`_index`, `_type`, `_id`; opType `index` upserts by (type, id), creating
the index on demand as Elasticsearch does, opType `delete` removes, and
other opTypes are outside the engine's use. -/
def Store.bulkOne (s : Store) (a : EsDoc) : Store :=
  match a.dIndex, a.dType, a.dId with
  | some ix, some ty, some did =>
      let op := a.dOpType.getD "index".toList
      if op == "index".toList then
        let curr := (s.indexes.lookup ix).getD ⟨[], []⟩
        let hit := curr.docs.any (fun d => d.sdType == ty && d.sdId == did)
        let docs :=
          if hit then
            curr.docs.map (fun d =>
              if d.sdType == ty && d.sdId == did then
                ⟨ty, did, a.dSource.getD []⟩
              else d)
          else curr.docs ++ [⟨ty, did, a.dSource.getD []⟩]
        { s with indexes := upsert s.indexes ix ⟨docs, curr.settingsBody⟩ }
      else if op == "delete".toList then
        match s.indexes.lookup ix with
        | none => s
        | some curr =>
            let kept :=
              curr.docs.filter (fun d => !(d.sdType == ty && d.sdId == did))
            { s with indexes := upsert s.indexes ix ⟨kept, curr.settingsBody⟩ }
      else s
  | _, _, _ => s

/-! ## The orchestrator

Source: `Migrates.migrate` and the methods it calls.  Per-run options are
a `Config`; whether an external interaction at a given stage raises is an
`Oracle` (a failure takes effect after the stage's store operations, and
recovery then runs on that state).  Logging, waiting, the detail recorder
and the restore files (filesystem, not store) are not part of the store
state.
-/

/-- The per-run options of a `Migrates` object. -/
structure Config where
  dry : Bool
  noHistory : Bool
  keepDummies : Bool
  dummyPre : Str
  historyIndex : Str
  historyDocType : Str
  historyTemplate : Str
  runStamp : Str

/-- Which external interactions raise during the run. -/
structure Oracle where
  failGetMigrations : Bool
  failGetTemplates : Bool
  failBackupTemplates : Bool
  failPendingMigrations : Bool
  failGetAffected : Bool
  failCreateDummies : Bool
  failPersistTemplates : Bool
  failMigrateDocuments : Bool
  failRemoveDummies : Bool
  failWriteHistory : Bool

/-- Source: the `MigratesFailState` constants. -/
inductive FailState where
  | GetMigrations
  | GetTemplates
  | BackupTemplates
  | PendingMigrations
  | GetAffected
  | TransformTemplates
  | CreateDummies
  | PersistTemplates
  | MigrateDocuments
  | WriteHistory
deriving DecidableEq

/-- Source: `MigratesFailState.NoRecoveryNeeded`. -/
def FailState.noRecoveryNeeded : FailState → Bool
  | .GetMigrations => true
  | .GetTemplates => true
  | .BackupTemplates => true
  | .PendingMigrations => true
  | .GetAffected => true
  | .TransformTemplates => true
  | _ => false

/-- Source: `Migrates.get_performed_migrations`: the `name` field of every
document scanned from the history index (absent index yields the empty
set; a history document without `name` would raise, totalized to `[]`). -/
def get_performed_migrations (cfg : Config) (s : Store) : List Str :=
  (s.getDocs cfg.historyIndex).map
    (fun d => (d.sdSource.lookup "name".toList).getD [])

/-- Source: `Migration.merge_document_transformations`, restricted to its
only use: the set of index patterns of the pending units. -/
def mergedTransformKeys (ms : List Migration) : List Str :=
  (ms.map (fun m => m.docTransforms.map Prod.fst)).flatten

/-- Source: `Migrates.get_affected_indexes`: the concrete index names
matching any document-transform pattern (a Python set; embedded as a
deduplicated list in store order). -/
def get_affected_indexes (ms : List Migration) (s : Store) : List Str :=
  ((s.indexes.map Prod.fst).filter
    (fun ix => (mergedTransformKeys ms).any (fun p => match_pattern p ix))).dedup

/-- Source: `Migrates.get_index_settings`: snapshot the settings of the
indexes that exist (a read). -/
def get_index_settings (s : Store) (ixs : List Str) : List (Str × Str) :=
  ixs.filterMap (fun ix =>
    (s.indexes.lookup ix).map (fun e => (ix, e.settingsBody)))

/-- Source: `Migrates.get_updated_templates`: deep-copy the originals and
fold each migration's `transform_templates` over them; a transform
returning `None` (or raising) is the error case. -/
def get_updated_templates (ms : List Migration) (orig : Templates) :
    Option Templates :=
  ms.foldl
    (fun acc m => acc.bind (fun t =>
      match m.templTransform with
      | none => some t
      | some f => f t))
    (some orig)

/-- Source: `Migrates.create_dummy_indexes`: for each affected index,
delete any pre-existing dummy and recreate it from the snapshotted
settings; every store call is guarded by `if not self.dry`. -/
def create_dummy_indexes (cfg : Config) (settings : List (Str × Str))
    (affected : List Str) (s : Store) : Store :=
  affected.foldl
    (fun st ix =>
      let dummy := get_dummy_index cfg.dummyPre ix
      let st1 :=
        if st.indexExists dummy && !cfg.dry then st.deleteIndex dummy else st
      if cfg.dry then st1
      else st1.createIndex dummy ((settings.lookup ix).getD []))
    s

/-- Source: `Migrates.populate_dummy_indexes`: bulk-copy every document of
each affected index into its dummy (`continue` on dry runs). -/
def populate_dummy_indexes (cfg : Config) (affected : List Str) (s : Store) :
    Store :=
  affected.foldl
    (fun st ix =>
      if cfg.dry then st
      else
        (st.getDocs ix).foldl
          (fun st2 d =>
            st2.bulkOne
              ⟨some (get_dummy_index cfg.dummyPre ix), some d.sdType,
               some d.sdId, some d.sdSource, some "index".toList⟩)
          st)
    s

/-- Source: `Migrates.remove_indexes` (absent indexes tolerated; deletes
guarded by `if not self.dry`). -/
def remove_indexes (cfg : Config) (ixs : List Str) (s : Store) : Store :=
  ixs.foldl (fun st ix => if cfg.dry then st else st.deleteIndex ix) s

/-- Source: `Migrates.migrate_templates`: remove every original template
that is deleted or changed in `updated`, then put every updated template
that was not unchanged; every store call is guarded by `if not self.dry`. -/
def migrate_templates (cfg : Config) (original updated : Templates)
    (s : Store) : Store :=
  let afterRemove :=
    original.foldl
      (fun st e =>
        if updated.lookup e.1 == some e.2 then st
        else if cfg.dry then st
        else st.deleteTemplate e.1)
      s
  updated.foldl
    (fun st e =>
      if original.lookup e.1 == some e.2 then st
      else if cfg.dry then st
      else st.putTemplate e.1 e.2)
    afterRemove

/-- Source: the per-document branch of `Migrates.migrate_indexes`: on dry
runs transforms are still folded for the detail report (whose state is not
part of the store) but errors only break and nothing is ever streamed;
otherwise the full pipeline runs. -/
def process_scan_doc (cfg : Config) (ms : List Migration) (d : EsDoc) :
    Except Unit (Option EsDoc) :=
  if cfg.dry then Except.ok none
  else migrate_document cfg.dummyPre ms d

/-- Collect the bulk actions of a list of scanned documents; a non-dry
pipeline error aborts the stage. -/
def collect_actions (cfg : Config) (ms : List Migration) :
    List EsDoc → Except Unit (List EsDoc)
  | [] => Except.ok []
  | d :: ds =>
      match process_scan_doc cfg ms d with
      | Except.error e => Except.error e
      | Except.ok none => collect_actions cfg ms ds
      | Except.ok (some a) =>
          match collect_actions cfg ms ds with
          | Except.error e => Except.error e
          | Except.ok acts => Except.ok (a :: acts)

/-- A scanned document of index `scanIx` as the dict the scan yields. -/
def scanDocs (s : Store) (scanIx : Str) : List EsDoc :=
  (s.getDocs scanIx).map
    (fun d => ⟨some scanIx, some d.sdType, some d.sdId, some d.sdSource, none⟩)

/-- Source: `Migrates.migrate_indexes`: scan each affected index (its
dummy on non-dry runs), run the document pipeline, and stream the
resulting actions through the batch (flushes preserve order; an exhausted
bulk retry aborts like any other stage error). -/
def migrate_indexes (cfg : Config) (ms : List Migration)
    (affected : List Str) (s : Store) : Except Unit Store :=
  let scanned :=
    (affected.map (fun ix =>
      scanDocs s (if cfg.dry then ix else get_dummy_index cfg.dummyPre ix))).flatten
  match collect_actions cfg ms scanned with
  | Except.error e => Except.error e
  | Except.ok acts => Except.ok (acts.foldl Store.bulkOne s)

/-- An opaque rendering of the history template body; it depends on the
version-shaped keyword field. -/
def history_template_body (cfg : Config) (kw : KeywordField) : Str :=
  cfg.historyIndex ++ cfg.historyDocType ++
    (match kw with
     | KeywordField.keyword => "keyword/true".toList
     | KeywordField.stringNotAnalyzed => "string/not_analyzed".toList)

/-- Source: `Migrates.enforce_history_template`: a PUT with
`create=False`, skipped entirely under `no_history`; NOT guarded by
`dry`. -/
def enforce_history_template (cfg : Config) (kw : KeywordField) (s : Store) :
    Store :=
  if cfg.noHistory then s
  else s.putTemplate cfg.historyTemplate (history_template_body cfg kw)

/-- Source: `Migrates.migration_action`: the history record for one
migration (dates rendered to strings are below the `Source`
abstraction; the fields the engine reads back are present). -/
def migration_action (cfg : Config) (m : Migration) : EsDoc :=
  { dIndex := some cfg.historyIndex
    dType := some cfg.historyDocType
    dId := some (m.name ++ "/".toList ++ cfg.runStamp)
    dSource := some [("timestamp".toList, cfg.runStamp), ("name".toList, m.name)]
    dOpType := some "index".toList }

/-- Source: `Migrates.write_migration_history`: enforce the template
(failure there is non-fatal), then — only when not a dry run — bulk-write
one record per migration. -/
def write_migration_history (cfg : Config) (kw : KeywordField)
    (ms : List Migration) (s : Store) : Store :=
  if cfg.noHistory then s
  else
    let s1 := enforce_history_template cfg kw s
    if cfg.dry then s1
    else (ms.map (migration_action cfg)).foldl Store.bulkOne s1

/-- Source: `Migrates.remove_dummy_indexes`. -/
def remove_dummy_indexes (cfg : Config) (affected : List Str) (s : Store) :
    Store :=
  if cfg.keepDummies then s
  else remove_indexes cfg (affected.map (get_dummy_index cfg.dummyPre)) s

/-- Source: `Migrates.revert_template_migration`: nothing to do when the
catalogs are equal, else run the template delta in reverse. -/
def revert_template_migration (cfg : Config) (original updated : Templates)
    (s : Store) : Store :=
  if updated == original then s
  else migrate_templates cfg updated original s

/-- Source: `Migrates.revert_indexes_migration`: recreate each affected
index whose dummy exists from the snapshotted settings, copy the dummy's
documents back, then remove the dummies; every store call is guarded by
`if not self.dry`. -/
def revert_indexes_migration (cfg : Config) (settings : List (Str × Str))
    (affected : List Str) (s : Store) : Store :=
  let s1 :=
    affected.foldl
      (fun st ix =>
        if st.indexExists (get_dummy_index cfg.dummyPre ix) then
          if cfg.dry then st
          else
            let st' := if st.indexExists ix then st.deleteIndex ix else st
            st'.createIndex ix ((settings.lookup ix).getD [])
        else st)
      s
  let s2 :=
    affected.foldl
      (fun st ix =>
        if !(st.indexExists (get_dummy_index cfg.dummyPre ix)) then st
        else if cfg.dry then st
        else
          (st.getDocs (get_dummy_index cfg.dummyPre ix)).foldl
            (fun st2 d =>
              st2.bulkOne
                ⟨some ix, some d.sdType, some d.sdId, some d.sdSource,
                 some "index".toList⟩)
            st)
      s1
  remove_dummy_indexes cfg affected s2

/-- Source: `Migrates.handle_migration_failure`: on dry runs only a log;
otherwise the recovery prescribed for the failure state. -/
def handle_migration_failure (cfg : Config) (settings : List (Str × Str))
    (affected : List Str) (original updated : Templates)
    (state : FailState) (s : Store) : Store :=
  if cfg.dry then s
  else if state.noRecoveryNeeded then s
  else
    match state with
    | FailState.CreateDummies => remove_dummy_indexes cfg affected s
    | FailState.PersistTemplates =>
        revert_template_migration cfg original updated
          (remove_dummy_indexes cfg affected s)
    | FailState.MigrateDocuments =>
        revert_indexes_migration cfg settings affected
          (revert_template_migration cfg original updated s)
    | _ => s

/-- Source: `Migrates.migrate`, stages 9 to 11 (delete the originals and
migrate the documents; remove the dummies, errors swallowed; write the
history records). -/
def migrate_stage9 (cfg : Config) (o : Oracle) (kw : KeywordField)
    (ms : List Migration) (affected : List Str)
    (settings : List (Str × Str)) (original updated : Templates)
    (s8 : Store) : Store :=
  let s9r :=
    if !affected.isEmpty && !cfg.dry then remove_indexes cfg affected s8
    else s8
  match
    (if affected.isEmpty then Except.ok s9r
     else migrate_indexes cfg ms affected s9r) with
  | Except.error _ =>
      handle_migration_failure cfg settings affected original updated
        FailState.MigrateDocuments s9r
  | Except.ok s9 =>
      if o.failMigrateDocuments then
        handle_migration_failure cfg settings affected original updated
          FailState.MigrateDocuments s9
      else
        let s10 :=
          if cfg.dry then s9
          else if o.failRemoveDummies then s9
          else
            remove_indexes cfg
              (affected.map (get_dummy_index cfg.dummyPre)) s9
        if cfg.dry then s10
        else if o.failWriteHistory then
          handle_migration_failure cfg settings affected original updated
            FailState.WriteHistory s10
        else write_migration_history cfg kw ms s10

/-- Source: `Migrates.migrate`, stages 7 and 8 (create and populate the
dummy indexes; persist the transformed templates) followed by stages
9 to 11. -/
def migrate_stage7 (cfg : Config) (o : Oracle) (kw : KeywordField)
    (ms : List Migration) (affected : List Str)
    (settings : List (Str × Str)) (original updated : Templates)
    (s : Store) : Store :=
  let s7 :=
    if !affected.isEmpty && !cfg.dry then
      populate_dummy_indexes cfg affected
        (create_dummy_indexes cfg settings affected s)
    else s
  if o.failCreateDummies then
    handle_migration_failure cfg settings affected original updated
      FailState.CreateDummies s7
  else
    let s8 := migrate_templates cfg original updated s7
    if o.failPersistTemplates then
      handle_migration_failure cfg settings affected original updated
        FailState.PersistTemplates s8
    else migrate_stage9 cfg o kw ms affected settings original updated s8

/-- Source: `Migrates.migrate`, the staged pipeline.  Each stage's
external interactions either all succeed or the stage raises (per the
`Oracle`), upon which `handle_migration_failure` runs. -/
def migrate (cfg : Config) (o : Oracle) (registry : List Migration)
    (arg : Option (List Migration)) (kw : KeywordField) (s : Store) : Store :=
  -- Stage 1: resolve the migration list.
  let perf := get_performed_migrations cfg s
  let ms := migrate_arg_resolved registry perf arg
  if o.failGetMigrations then
    handle_migration_failure cfg [] [] [] [] FailState.GetMigrations s
  else if migrate_returns_early arg then s
  else
    -- Stage 2: read the template catalog.
    if o.failGetTemplates then
      handle_migration_failure cfg [] [] [] [] FailState.GetTemplates s
    else
      let original := s.templates
      -- Stages 3 and 4: restore files (filesystem only).
      if o.failBackupTemplates then
        handle_migration_failure cfg [] [] original [] FailState.BackupTemplates s
      else if o.failPendingMigrations then
        handle_migration_failure cfg [] [] original [] FailState.PendingMigrations s
      else if o.failGetAffected then
        handle_migration_failure cfg [] [] original [] FailState.GetAffected s
      else
        -- Stage 5: affected indexes and their settings snapshot.
        let affected := get_affected_indexes ms s
        let settings := if cfg.dry then [] else get_index_settings s affected
        -- Stage 6: fold the template transforms.
        match get_updated_templates ms original with
        | none =>
            handle_migration_failure cfg settings affected original []
              FailState.TransformTemplates s
        | some updated =>
            migrate_stage7 cfg o kw ms affected settings original updated s

/-! ## Concrete instances used by counterexamples and witnesses -/

/-- A migration with equal date and lexicographically larger name. -/
def migNameB : Migration :=
  { name := "b".toList, date := 5, repeatFlag := false, internal := false,
    docTransforms := [], templTransform := none }

/-- A migration with equal date and lexicographically smaller name. -/
def migNameA : Migration :=
  { name := "a".toList, date := 5, repeatFlag := false, internal := false,
    docTransforms := [], templTransform := none }

/-- A migration whose only effect is adding one template. -/
def migAddTemplate : Migration :=
  { name := "add_template".toList, date := 7, repeatFlag := false,
    internal := false, docTransforms := [],
    templTransform := some (fun t => some (upsert t "extra".toList "body".toList)) }

/-- A document transform that records the `_index` it was shown into
`_source`. -/
def tfRecordIndex : TF := fun d =>
  Except.ok (some { d with dSource := some [("seen".toList, d.dIndex.getD [])] })

/-- A migration applying `tfRecordIndex` to every index and doc type. -/
def migRecordIndex : Migration :=
  { name := "record".toList, date := 1, repeatFlag := false, internal := false,
    docTransforms := [("*".toList, [("*".toList, tfRecordIndex)])],
    templTransform := none }

/-- A document as scanned from the shadow index `migrates_dummy_a`. -/
def docShadowA : EsDoc :=
  { dIndex := some "migrates_dummy_a".toList, dType := some "t".toList,
    dId := some "1".toList, dSource := some [("x".toList, "y".toList)],
    dOpType := none }

/-- The action the source pipeline emits for `docShadowA` under
`migRecordIndex`: the transform saw the already-rewritten index name. -/
def outRecordA : EsDoc :=
  { dIndex := some "a".toList, dType := some "t".toList,
    dId := some "1".toList,
    dSource := some [("seen".toList, "a".toList)],
    dOpType := some "index".toList }

/-- A minimal well-formed bulk action. -/
def docStub : EsDoc :=
  { dIndex := some "i".toList, dType := some "t".toList,
    dId := some "1".toList, dSource := some [], dOpType := none }

/-- A default, non-dry configuration. -/
def cfgPlain : Config :=
  { dry := false, noHistory := false, keepDummies := false,
    dummyPre := "migrates_dummy_".toList,
    historyIndex := "migrates_history".toList,
    historyDocType := "migration".toList,
    historyTemplate := "migrates_history_template".toList,
    runStamp := "20170101000000".toList }

/-- An oracle under which no external interaction fails. -/
def oracleOk : Oracle :=
  { failGetMigrations := false, failGetTemplates := false,
    failBackupTemplates := false, failPendingMigrations := false,
    failGetAffected := false, failCreateDummies := false,
    failPersistTemplates := false, failMigrateDocuments := false,
    failRemoveDummies := false, failWriteHistory := false }

/-- An empty store. -/
def storeEmpty : Store := { templates := [], indexes := [] }

/-! ## Theorems -/

/-- C10: round trip of shadow-index naming: `get_original_index` undoes
`get_dummy_index`, and it raises (returns `none`) exactly when its
argument does not start with the configured dummy-index prefix. -/
theorem c10_dummy_index_roundtrip (dummyPre s d : Str) :
    get_original_index dummyPre (get_dummy_index dummyPre s) = some s ∧
    (get_original_index dummyPre d = none ↔ dummyPre.isPrefixOf d = false) := by
  constructor
  · have hpre : dummyPre.isPrefixOf (dummyPre ++ s) = true := by
      rw [List.isPrefixOf_iff_prefix]
      exact List.prefix_append dummyPre s
    simp [get_original_index, get_dummy_index, hpre]
  · by_cases h : dummyPre.isPrefixOf d <;> simp [get_original_index, h]

/-- C9 counterexample: with pattern `abc` and target `abc` followed by a
newline, the code's matcher succeeds (Python's `$` also matches just
before a final newline), although the target is not fully matched by the
escaped-and-starred regex anchored at both ends. -/
theorem c9_trailing_newline_cex :
    match_pattern "abc".toList "abc\n".toList = true ∧
    match_pattern_spec "abc".toList "abc\n".toList = false := by decide

/-- C9 (amended): `match(p, s)` holds iff `s` is fully matched by the
regex obtained from `p` by escaping and replacing the escaped star with
dot-star, OR `s` ends with a newline and `s` without that final newline is
fully matched (the `$` anchor of Python's `re`). -/
theorem c9_match_pattern_amended (p s : Str) :
    match_pattern p s = true ↔
      (match_pattern_spec p s = true ∨
        (s.getLast? = some '\n' ∧ match_pattern_spec p s.dropLast = true)) := by
  simp [match_pattern, match_pattern_spec, Bool.or_eq_true, Bool.and_eq_true,
    and_comm]

/-- C6: the version test `int(self.es_version[0]) >= 5` reads only the
FIRST CHARACTER of the version string.  For server version `10.0.0` the
leading component is 10 ≥ 5, so the claim (and the function's own
docstring, "for Elasticsearch 5.x and later") demand the keyword mapping,
but the code takes `int('1') = 1 < 5` and returns the legacy
string/not_analyzed mapping. -/
theorem c6_keyword_field_major_version :
    get_keyword_field "10.0.0".toList =
      Except.ok KeywordField.stringNotAnalyzed ∧
    5 ≤ leadingComponent "10.0.0".toList ∧
    get_keyword_field_spec "10.0.0".toList = KeywordField.keyword ∧
    get_keyword_field "5.2.1".toList = Except.ok KeywordField.keyword ∧
    get_keyword_field "4.1.0".toList =
      Except.ok KeywordField.stringNotAnalyzed := by decide

/-- C2 counterexample: two registered migrations with the same date and
names `b`, `a` (in that registry order) are returned as `[b, a]` — the
source sorts by `date` alone (a stable sort), not by the pair
(date, name), which would give `[a, b]`. -/
theorem c2_pending_date_name_order_cex :
    (get_pending_migrations [migNameB, migNameA] []).map Migration.name =
      ["b".toList, "a".toList] ∧
    (get_pending_migrations_spec [migNameB, migNameA] []).map Migration.name =
      ["a".toList, "b".toList] := by decide

/-- Inserting into a list with the date order keeps the sublist of any
fixed date unchanged apart from prepending the new element when its date
is that value (the elements walked past all have strictly smaller
dates). -/
theorem orderedInsert_filter_date (a : Migration) (d : Nat) :
    ∀ L : List Migration,
      (List.orderedInsert (fun x y => x.date ≤ y.date) a L).filter
          (fun m => m.date == d) =
        if a.date == d then
          a :: L.filter (fun m => m.date == d)
        else L.filter (fun m => m.date == d)
  | [] => by simp [List.orderedInsert, List.filter_cons]
  | b :: L => by
    simp only [List.orderedInsert]
    by_cases h : a.date ≤ b.date
    · rw [if_pos h]
      by_cases had : a.date = d <;> by_cases hbd : b.date = d <;>
        simp [List.filter_cons, had, hbd]
    · rw [if_neg h]
      have hlt : b.date < a.date := Nat.lt_of_not_le h
      by_cases had : a.date = d
      · have hbd : ¬ b.date = d := by omega
        simp [List.filter_cons, had, hbd, orderedInsert_filter_date a d L]
      · by_cases hbd : b.date = d <;>
          simp [List.filter_cons, had, hbd, orderedInsert_filter_date a d L]

/-- The date sort is stable: restricted to any fixed date, it is the
identity. -/
theorem insertionSort_filter_date (d : Nat) :
    ∀ L : List Migration,
      (List.insertionSort (fun x y => x.date ≤ y.date) L).filter
          (fun m => m.date == d) =
        L.filter (fun m => m.date == d)
  | [] => rfl
  | a :: L => by
    rw [List.insertionSort, orderedInsert_filter_date,
      insertionSort_filter_date d L]
    by_cases had : a.date = d <;> simp [List.filter_cons, had]

/-- C2 (amended): `get_pending_migrations` returns exactly the registered
units whose name is not in the performed set or whose repeat flag is true,
sorted ascending by date; the sort is stable, so units with equal dates
keep their registry order (not (date, name) order). -/
theorem c2_pending_amended (registry : List Migration) (performed : List Str) :
    (get_pending_migrations registry performed).Perm
        (registry.filter (keepPending performed)) ∧
    (get_pending_migrations registry performed).Sorted
        (fun a b => a.date ≤ b.date) ∧
    (∀ d : Nat,
      (get_pending_migrations registry performed).filter
          (fun m => m.date == d) =
        (registry.filter (keepPending performed)).filter
          (fun m => m.date == d)) := by
  refine ⟨List.perm_insertionSort _ _, ?_, fun d => insertionSort_filter_date d _⟩
  haveI : IsTotal Migration (fun a b => a.date ≤ b.date) :=
    ⟨fun a b => Nat.le_total a.date b.date⟩
  haveI : IsTrans Migration (fun a b => a.date ≤ b.date) :=
    ⟨fun _ _ _ hab hbc => Nat.le_trans hab hbc⟩
  exact List.sorted_insertionSort _ _

/-- C1: evaluating the code at the failing input.  With one registered
pending migration and an empty history, a call of `migrate` WITHOUT an
explicit migration list resolves a pending list of length 1 and yet
returns immediately, performing no further stage (the store, here
initially empty, is untouched even though the same migration, passed
explicitly to the same non-dry run, does mutate the store): the source's
`if not migrations: return` tests the `None` parameter instead of the
resolved `self.migrations`. -/
theorem c1_migrate_none_parameter_bug :
    (migrate_arg_resolved [migAddTemplate] [] none).length = 1 ∧
    migrate_returns_early none = true ∧
    migrate cfgPlain oracleOk [migAddTemplate] none KeywordField.keyword
        storeEmpty = storeEmpty ∧
    (migrate cfgPlain oracleOk [migAddTemplate] (some [migAddTemplate])
        KeywordField.keyword storeEmpty).templates.length = 2 := by decide

/-- C5 counterexample: when the store fails every bulk call, flushing a
non-empty batch attempts the bulk call 4 times in total (initial attempt
plus 3 retries: the source retries while `attempts < max_attempts` with
`attempts` starting at 0), not at most 3 as claimed. -/
theorem c5_flush_attempts_cex :
    (flush (fun _ => true) [docStub]).bulkCalls = 4 ∧
    3 < (flush (fun _ => true) [docStub]).bulkCalls := by decide

/-- C5 (amended): a flush of a non-empty batch whose bulk call fails
sleeps 5 seconds before each retry and attempts the bulk call at most
4 times in total (one initial attempt plus up to 3 retries); the error
propagates exactly when all 4 attempts fail; a success after at least one
retry — and only such a success — logs a note. -/
theorem c5_flush_amended (fail : Nat → Bool) (acts : List EsDoc) :
    (flush fail acts).bulkCalls ≤ 4 ∧
    (flush fail acts).sleeps5 = (flush fail acts).bulkCalls - 1 ∧
    ((flush fail acts).success = true ∨
      ((flush fail acts).bulkCalls = 4 ∧ fail 0 = true ∧ fail 1 = true ∧
        fail 2 = true ∧ fail 3 = true)) ∧
    ((flush fail acts).loggedNote = true ↔
      ((flush fail acts).success = true ∧ acts.isEmpty = false ∧
        fail 0 = true)) := by
  by_cases hA : acts.isEmpty
  · simp [flush, hA]
  · cases h0 : fail 0 <;> cases h1 : fail 1 <;> cases h2 : fail 2 <;>
      cases h3 : fail 3 <;>
      simp [flush, hA, flushAttempts, h0, h1, h2, h3]

/-- Association-list totality: looking up a key that occurs among the
keys succeeds (dict subscription of a present key cannot fail). -/
theorem lookup_of_mem_keys {β : Type} (k : Str) :
    ∀ l : List (Str × β), k ∈ l.map Prod.fst → ∃ v, l.lookup k = some v
  | [], h => absurd h (List.not_mem_nil k)
  | (k', v') :: l, h => by
    by_cases hk : k = k'
    · exact ⟨v', by simp [List.lookup, hk]⟩
    · have hmem : k ∈ l.map Prod.fst := by
        rcases List.mem_cons.mp h with h1 | h2
        · exact absurd h1 hk
        · exact h2
      obtain ⟨v, hv⟩ := lookup_of_mem_keys k l hmem
      exact ⟨v, by simp [List.lookup, beq_false_of_ne hk, hv]⟩

/-- C7: selecting a document transform raises exactly on ambiguity: the
error case of `get_document_transform_at` holds iff more than one of the
unit's index patterns matches the document's index name, or exactly one
does and more than one doc-type pattern of that entry matches the
document's type; with one or zero matches at each level no error occurs
(zero matches yield the identity transform).  This is the transform-time
check in `Migration.get_document_transform` (the raise's own message
formatting is broken — `{2}` with two arguments — but an exception
propagates either way). -/
theorem c7_transform_ambiguity_iff (tm : TransformMap) (di dt : Str) :
    (get_document_transform_at tm di dt).isOk = false ↔
      (1 < (matchingKeys (tm.map Prod.fst) di).length ∨
        ((matchingKeys (tm.map Prod.fst) di).length = 1 ∧
          1 < (matchingTypeKeys tm di dt).length)) := by
  simp only [get_document_transform_at, matchingTypeKeys]
  cases hiks : matchingKeys (tm.map Prod.fst) di with
  | nil => simp [Except.isOk, Except.toBool]
  | cons ik rest =>
      by_cases h1 : 0 < rest.length
      · have h1' : 1 < (ik :: rest).length := by simpa using h1
        simp [h1, h1', Except.isOk, Except.toBool]
      · have hrest : rest = [] :=
          List.length_eq_zero.mp (Nat.eq_zero_of_not_pos h1)
        subst hrest
        have hmem : ik ∈ tm.map Prod.fst := by
          have hik : ik ∈ matchingKeys (tm.map Prod.fst) di := by
            rw [hiks]; exact List.mem_singleton_self ik
          exact List.mem_of_mem_filter hik
        obtain ⟨typeMap, htm⟩ := lookup_of_mem_keys ik tm hmem
        cases htks : matchingKeys (typeMap.map Prod.fst) dt with
        | nil => simp [htm, htks, Except.isOk, Except.toBool]
        | cons tk trest =>
            by_cases h2 : 0 < trest.length
            · have h2' : 1 < (tk :: trest).length := by simpa using h2
              simp [htm, htks, h2, h2', Except.isOk, Except.toBool]
            · have htrest : trest = [] :=
                List.length_eq_zero.mp (Nat.eq_zero_of_not_pos h2)
              subst htrest
              have hmem2 : tk ∈ typeMap.map Prod.fst := by
                have htk : tk ∈ matchingKeys (typeMap.map Prod.fst) dt := by
                  rw [htks]; exact List.mem_singleton_self tk
                exact List.mem_of_mem_filter htk
              obtain ⟨f, hf⟩ := lookup_of_mem_keys tk typeMap hmem2
              simp [htm, htks, hf, Except.isOk, Except.toBool]

/-- Inversion of `validate_transformed_document` with `add_op_type`: a
success means the input carried `_index`, `_type` and `_source`, and the
output is the input with `_op_type` defaulted to `index` when absent. -/
theorem validate_ok_inv (d1 out : EsDoc)
    (h : validate_transformed_document d1 true = Except.ok out) :
    d1.dIndex.isSome = true ∧ d1.dType.isSome = true ∧
    d1.dSource.isSome = true ∧
    ((d1.dOpType = none ∧ out = { d1 with dOpType := some "index".toList }) ∨
      (d1.dOpType.isSome = true ∧ out = d1)) := by
  unfold validate_transformed_document at h
  split_ifs at h with h1 h2 h3 h4
  · have hidx : d1.dIndex.isSome = true :=
      Option.ne_none_iff_isSome.mp (fun hn => h1 (by simp [hn]))
    have hty : d1.dType.isSome = true :=
      Option.ne_none_iff_isSome.mp (fun hn => h2 (by simp [hn]))
    have hsrc : d1.dSource.isSome = true :=
      Option.ne_none_iff_isSome.mp (fun hn => h3 (by simp [hn]))
    have hop : d1.dOpType = none := by
      have hb := (Bool.and_eq_true _ _).mp h4
      exact Option.isNone_iff_eq_none.mp hb.2
    simp only [Except.ok.injEq] at h
    exact ⟨hidx, hty, hsrc, Or.inl ⟨hop, h.symm⟩⟩
  · have hidx : d1.dIndex.isSome = true :=
      Option.ne_none_iff_isSome.mp (fun hn => h1 (by simp [hn]))
    have hty : d1.dType.isSome = true :=
      Option.ne_none_iff_isSome.mp (fun hn => h2 (by simp [hn]))
    have hsrc : d1.dSource.isSome = true :=
      Option.ne_none_iff_isSome.mp (fun hn => h3 (by simp [hn]))
    have hop : d1.dOpType.isSome = true := by
      cases hd : d1.dOpType with
      | none => exact absurd (by simp [hd]) h4
      | some v => simp [hd]
    simp only [Except.ok.injEq] at h
    exact ⟨hidx, hty, hsrc, Or.inr ⟨hop, h.symm⟩⟩

/-- C3 counterexample: a transform that records the `_index` it is shown
observes the already-rewritten (original) name `a`, because the source
rewrites `_index` BEFORE folding the transforms; the spec's pipeline
(rewrite after the fold) would let it observe the shadow name
`migrates_dummy_a`, yielding a different document. -/
theorem c3_rewrite_order_cex :
    migrate_document "migrates_dummy_".toList [migRecordIndex] docShadowA =
      Except.ok (some outRecordA) ∧
    migrate_document_spec "migrates_dummy_".toList [migRecordIndex]
        docShadowA =
      Except.ok (some { outRecordA with
        dSource := some [("seen".toList, "migrates_dummy_a".toList)] }) ∧
    migrate_document "migrates_dummy_".toList [migRecordIndex] docShadowA ≠
      migrate_document_spec "migrates_dummy_".toList [migRecordIndex]
        docShadowA := by decide

/-- C3 (amended): for every document scanned from a shadow index, its
`_index` is rewritten to the original (un-shadowed) name FIRST, then the
pending units' applicable transforms are folded over it in unit order,
and after the fold the document is validated to still carry `_index`,
`_type` and `_source` and is streamed to the bulk writer with opType
index when the transforms left none (an existing opType is kept). -/
theorem c3_pipeline_amended (dummyPre : Str) (ms : List Migration)
    (d out : EsDoc)
    (h : migrate_document dummyPre ms d = Except.ok (some out)) :
    (∃ d0 d1, rewriteOriginal dummyPre d = Except.ok d0 ∧
      foldTransforms ms d0 = Except.ok (some d1) ∧
      validate_transformed_document d1 true = Except.ok out ∧
      ((d1.dOpType = none ∧
          out = { d1 with dOpType := some "index".toList }) ∨
        (d1.dOpType.isSome = true ∧ out = d1))) ∧
    out.dIndex.isSome = true ∧ out.dType.isSome = true ∧
    out.dSource.isSome = true ∧ out.dOpType.isSome = true := by
  unfold migrate_document at h
  cases hrw : rewriteOriginal dummyPre d with
  | error e => rw [hrw] at h; simp at h
  | ok d0 =>
      rw [hrw] at h
      simp only [] at h
      cases hfold : foldTransforms ms d0 with
      | error e => rw [hfold] at h; simp at h
      | ok r =>
          cases r with
          | none => rw [hfold] at h; simp at h
          | some d1 =>
              rw [hfold] at h
              simp only [] at h
              cases hval : validate_transformed_document d1 true with
              | error e => rw [hval] at h; simp at h
              | ok d2 =>
                  rw [hval] at h
                  simp only [Except.ok.injEq, Option.some.injEq] at h
                  subst h
                  obtain ⟨hidx, hty, hsrc, hcase⟩ :=
                    validate_ok_inv d1 d2 hval
                  refine ⟨⟨d0, d1, rfl, hfold, hval, hcase⟩, ?_, ?_, ?_, ?_⟩
                  · rcases hcase with ⟨_, hout⟩ | ⟨_, hout⟩ <;> subst hout <;>
                      simpa using hidx
                  · rcases hcase with ⟨_, hout⟩ | ⟨_, hout⟩ <;> subst hout <;>
                      simpa using hty
                  · rcases hcase with ⟨_, hout⟩ | ⟨_, hout⟩ <;> subst hout <;>
                      simpa using hsrc
                  · rcases hcase with ⟨_, hout⟩ | ⟨hop, hout⟩ <;> subst hout
                    · rfl
                    · simpa using hop

/-- C3 witness: the amended pipeline theorem applied to the concrete
shadow document. -/
theorem c3_pipeline_amended_witness :
    (∃ d0 d1,
      rewriteOriginal "migrates_dummy_".toList docShadowA = Except.ok d0 ∧
      foldTransforms [migRecordIndex] d0 = Except.ok (some d1) ∧
      validate_transformed_document d1 true = Except.ok outRecordA ∧
      ((d1.dOpType = none ∧
          outRecordA = { d1 with dOpType := some "index".toList }) ∨
        (d1.dOpType.isSome = true ∧ outRecordA = d1))) ∧
    outRecordA.dIndex.isSome = true ∧ outRecordA.dType.isSome = true ∧
    outRecordA.dSource.isSome = true ∧ outRecordA.dOpType.isSome = true :=
  c3_pipeline_amended "migrates_dummy_".toList [migRecordIndex] docShadowA
    outRecordA (by decide)

/-- Threshold invariant for the batch: between adds, a batch whose limits
are positive and that starts (or was just cleared) below both limits
stays strictly below both limits — a flush fires the moment a limit is
reached, never later. -/
theorem batch_run_inv :
    ∀ (l : List (EsDoc × Str)) (b : Batch),
      0 < b.size → 0 < b.indexesSize →
      b.actions.length < b.size → b.indexes.card < b.indexesSize →
      (((b.run l).actions.length < b.size ∧
        (b.run l).indexes.card < b.indexesSize) ∧
        (b.run l).size = b.size ∧ (b.run l).indexesSize = b.indexesSize)
  | [], b, _, _, ha, hx => ⟨⟨ha, hx⟩, rfl, rfl⟩
  | (a, ix) :: rest, b, hs, hi, ha, hx => by
    simp only [Batch.run]
    have step := batch_run_inv rest (b.addIx a ix).1
    simp only [Batch.addIx] at step ⊢
    by_cases hfl :
        b.size ≤ (b.actions ++ [a]).length ∨
          b.indexesSize ≤ (insert ix b.indexes).card
    · rw [if_pos hfl] at step ⊢
      exact step hs hi (by simpa using hs) (by simpa using hi)
    · rw [if_neg hfl] at step ⊢
      push_neg at hfl
      exact step hs hi (by simpa using hfl.1) (by simpa using hfl.2)

/-- C8: a flush is triggered by `Batch.add` exactly when, counting the
action just added, the buffer holds at least `size` actions or at least
`indexesSize` distinct target indexes; starting from an empty batch with
positive limits the buffer between adds always stays strictly below both
limits (never flushing sooner on counts alone); and flushing an empty
buffer performs no bulk call and succeeds. -/
theorem c8_batch_thresholds (size isz : Nat) (hs : 0 < size) (hi : 0 < isz)
    (l : List (EsDoc × Str)) (b : Batch) (a : EsDoc) (ix : Str)
    (fail : Nat → Bool) :
    ((b.addIx a ix).2 = true ↔
      (b.size ≤ b.actions.length + 1 ∨
        b.indexesSize ≤ (insert ix b.indexes).card)) ∧
    (((Batch.init size isz).run l).actions.length < size ∧
      ((Batch.init size isz).run l).indexes.card < isz) ∧
    ((flush fail []).bulkCalls = 0 ∧ (flush fail []).success = true) := by
  refine ⟨?_, ?_, by simp [flush]⟩
  · unfold Batch.addIx
    by_cases hfl :
        b.size ≤ (b.actions ++ [a]).length ∨
          b.indexesSize ≤ (insert ix b.indexes).card
    · rw [if_pos hfl]
      simpa using hfl
    · rw [if_neg hfl]
      simpa using hfl
  · have h := batch_run_inv l (Batch.init size isz) hs hi
      (by simpa [Batch.init] using hs) (by simpa [Batch.init] using hi)
    exact h.1

/-- C8 witness: the threshold theorem at the default limits (1000, 5),
one added action, and a never-failing store. -/
theorem c8_batch_thresholds_witness :
    (((Batch.init 1000 5).addIx docStub "i".toList).2 = true ↔
      ((Batch.init 1000 5).size ≤ (Batch.init 1000 5).actions.length + 1 ∨
        (Batch.init 1000 5).indexesSize ≤
          (insert "i".toList (Batch.init 1000 5).indexes).card)) ∧
    (((Batch.init 1000 5).run [(docStub, "i".toList)]).actions.length < 1000 ∧
      ((Batch.init 1000 5).run [(docStub, "i".toList)]).indexes.card < 5) ∧
    ((flush (fun _ => false) []).bulkCalls = 0 ∧
      (flush (fun _ => false) []).success = true) :=
  c8_batch_thresholds 1000 5 (by decide) (by decide) [(docStub, "i".toList)]
    (Batch.init 1000 5) docStub "i".toList (fun _ => false)

/-- A fold whose body never changes the accumulator is the identity. -/
theorem foldl_fixed_of {α β : Type} (f : β → α → β)
    (h : ∀ st e, f st e = st) : ∀ (l : List α) (s : β), l.foldl f s = s
  | [], _ => rfl
  | e :: l, s => by rw [List.foldl_cons, h, foldl_fixed_of f h l]

/-- On a dry run `migrate_templates` performs no store call. -/
theorem migrate_templates_dry (cfg : Config) (hdry : cfg.dry = true)
    (original updated : Templates) (s : Store) :
    migrate_templates cfg original updated s = s := by
  unfold migrate_templates
  rw [foldl_fixed_of _ (fun st e => by simp [hdry]) original s,
    foldl_fixed_of _ (fun st e => by simp [hdry]) updated s]

/-- On a dry run `remove_indexes` performs no store call. -/
theorem remove_indexes_dry (cfg : Config) (hdry : cfg.dry = true)
    (ixs : List Str) (s : Store) : remove_indexes cfg ixs s = s := by
  unfold remove_indexes
  exact foldl_fixed_of _ (fun st e => by simp [hdry]) ixs s

/-- On a dry run the document loop streams no action at all. -/
theorem collect_actions_dry (cfg : Config) (hdry : cfg.dry = true)
    (ms : List Migration) :
    ∀ ds : List EsDoc, collect_actions cfg ms ds = Except.ok []
  | [] => rfl
  | d :: ds => by
    unfold collect_actions process_scan_doc
    rw [if_pos hdry]
    exact collect_actions_dry cfg hdry ms ds

/-- On a dry run `migrate_indexes` leaves the store untouched. -/
theorem migrate_indexes_dry (cfg : Config) (hdry : cfg.dry = true)
    (ms : List Migration) (affected : List Str) (s : Store) :
    migrate_indexes cfg ms affected s = Except.ok s := by
  unfold migrate_indexes
  simp [collect_actions_dry cfg hdry ms]

/-- On a dry run `handle_migration_failure` only logs. -/
theorem handle_migration_failure_dry (cfg : Config) (hdry : cfg.dry = true)
    (settings : List (Str × Str)) (affected : List Str)
    (original updated : Templates) (state : FailState) (s : Store) :
    handle_migration_failure cfg settings affected original updated state s
      = s := by
  unfold handle_migration_failure
  rw [if_pos hdry]

/-- On a dry run stages 9 to 11 leave the store untouched. -/
theorem migrate_stage9_dry (cfg : Config) (hdry : cfg.dry = true)
    (o : Oracle) (kw : KeywordField) (ms : List Migration)
    (affected : List Str) (settings : List (Str × Str))
    (original updated : Templates) (s8 : Store) :
    migrate_stage9 cfg o kw ms affected settings original updated s8 = s8 := by
  unfold migrate_stage9
  simp [hdry, migrate_indexes_dry cfg hdry,
    handle_migration_failure_dry cfg hdry]

/-- On a dry run stages 7 to 11 leave the store untouched. -/
theorem migrate_stage7_dry (cfg : Config) (hdry : cfg.dry = true)
    (o : Oracle) (kw : KeywordField) (ms : List Migration)
    (affected : List Str) (settings : List (Str × Str))
    (original updated : Templates) (s : Store) :
    migrate_stage7 cfg o kw ms affected settings original updated s = s := by
  unfold migrate_stage7
  simp [hdry, migrate_templates_dry cfg hdry,
    handle_migration_failure_dry cfg hdry,
    migrate_stage9_dry cfg hdry]

/-- C4: a run executed with `dry = true` performs no store mutation — the
final store equals the initial one, whatever the oracle of external
failures, the registry, the migration argument and the probed version; in
particular the template catalog, the set of (non-shadow) indexes, and
every document are unchanged. -/
theorem c4_dry_run_no_mutation (cfg : Config) (o : Oracle)
    (registry : List Migration) (arg : Option (List Migration))
    (kw : KeywordField) (s : Store) :
    migrate { cfg with dry := true } o registry arg kw s = s := by
  have hdry : ({ cfg with dry := true } : Config).dry = true := rfl
  unfold migrate
  simp only [hdry, handle_migration_failure_dry _ hdry,
    migrate_stage7_dry _ hdry]
  repeat' split
  all_goals rfl

end Migrates
